import Mathlib

/-!
Verification of the payment-attempt defense and order-settlement core of the
SSWPA ticketing service (src/app/main.py), shallowly embedded in Lean 4.

Conventions of the embedding:
* time is modelled as `Int` seconds (Python `datetime.now()` / `time.time()`
  become an explicit `now : Int` parameter);
* Python deques of timestamps become `List Int` in append order, so the
  `popleft`-while-old loops become `List.dropWhile`;
* `defaultdict(deque)` and Python dicts become total functions into lists or
  `Option`, updated pointwise;
* fallible or exception-raising steps are made explicit: the Square gateway
  call is a `GatewayBehavior` parameter that either raises or returns a
  result object, mirroring the `try/except` structure of the endpoints.
-/

namespace SSWPA

/-! ## Rate limiting (src/app/main.py lines 40-83) -/

/-- Configuration of one rate-limit window: `{'limit': …, 'window': …}`. -/
structure LimitCfg where
  limit : Nat
  window : Int
deriving Repr, DecidableEq

/-- The `RATE_LIMITS` dict of main.py, in its (insertion-ordered) iteration
order: 5 minutes → 5, 1 hour → 15, 1 day → 50, with windows in seconds. -/
def RATE_LIMITS : List (String × LimitCfg) :=
  [("per_5_minutes", ⟨5, 300⟩), ("per_hour", ⟨15, 3600⟩), ("per_day", ⟨50, 86400⟩)]

/-- Embeds `cleanup_old_attempts`: drop from the front of the deque every
timestamp strictly older than `now - 1 day`. -/
def cleanup_old_attempts (now : Int) (attempts : List Int) : List Int :=
  attempts.dropWhile (fun t => t < now - 86400)

/-- The three user-facing rejection messages of `check_rate_limit`. -/
def rate_limit_message (limit_name : String) : String :=
  if limit_name = "per_5_minutes" then
    "Too many payment attempts. Please wait 5 minutes before trying again."
  else if limit_name = "per_hour" then
    "Too many payment attempts. Please wait before trying again."
  else
    "Daily payment limit reached. Please try again tomorrow."

/-- The `for limit_name, config in RATE_LIMITS.items()` loop body of
`check_rate_limit`: count attempts with `attempt_time > cutoff` and reject at
the first window whose count has reached its limit. -/
def check_rate_limit_loop (now : Int) (attempts : List Int) :
    List (String × LimitCfg) → Bool × String
  | [] => (true, "")
  | (limit_name, config) :: rest =>
      let cutoff := now - config.window
      let recent_attempts := (attempts.filter (fun t => cutoff < t)).length
      if config.limit ≤ recent_attempts then
        (false, rate_limit_message limit_name)
      else
        check_rate_limit_loop now attempts rest

/-- Embeds `check_rate_limit(ip)`: first `cleanup_old_attempts` (which mutates
the stored deque — the pruned deque is returned as the second component), then
scan `RATE_LIMITS` in order. Returns `((allowed, error_message), pruned)`. -/
def check_rate_limit (now : Int) (attempts : List Int) :
    (Bool × String) × List Int :=
  let pruned := cleanup_old_attempts now attempts
  (check_rate_limit_loop now pruned RATE_LIMITS, pruned)

/-! ### Spec-side admission control (spec §4.1), for the refinement claim C6 -/

/-- Number of attempts lying strictly inside the window `(now - w, now]`. -/
def attempts_within (now w : Int) (attempts : List Int) : Nat :=
  (attempts.filter (fun t => now - w < t)).length

/-- Window table of spec §4.1 in ascending duration order, each with its
limit and its window-specific message. -/
def spec_windows : List (Int × Nat × String) :=
  [(300, 5, rate_limit_message "per_5_minutes"),
   (3600, 15, rate_limit_message "per_hour"),
   (86400, 50, rate_limit_message "per_day")]

/-- Admission control written from the words of spec §4.1: prune records older
than the longest window (1 day), then evaluate the windows in ascending
duration order and reject with the message of the first saturated window. -/
def isAdmitted (now : Int) (attempts : List Int) : (Bool × String) × List Int :=
  let pruned := attempts.dropWhile (fun t => t < now - 86400)
  let rec go : List (Int × Nat × String) → Bool × String
    | [] => (true, "")
    | (w, limit, msg) :: rest =>
        if limit ≤ attempts_within now w pruned then (false, msg) else go rest
  (go spec_windows, pruned)

/-! ## Anomaly detection (src/app/main.py lines 50-109, 177-191) -/

def ANOMALY_THRESHOLD : Nat := 60

def ANOMALY_WINDOW : Int := 60

def ALERT_COOLDOWN : Int := 900

/-- One entry of `global_payment_attempts`: `{'timestamp': now, 'ip': ip}`. -/
structure GlobalAttempt where
  timestamp : Int
  ip : String
deriving Repr, DecidableEq

/-- State owned by the anomaly detector: the global deque and
`last_alert_time` (`None` at startup). -/
structure AnomalyState where
  global_payment_attempts : List GlobalAttempt
  last_alert_time : Option Int
deriving Repr, DecidableEq

/-- Embeds `cleanup_global_attempts`: drop entries older than the 60-second
anomaly window from the front of the global deque. -/
def cleanup_global_attempts (now : Int) (l : List GlobalAttempt) :
    List GlobalAttempt :=
  l.dropWhile (fun a => a.timestamp < now - ANOMALY_WINDOW)

/-- The cooldown gate `last_alert_time is None or (now - last_alert_time) >
ALERT_COOLDOWN`. -/
def cooldown_elapsed (now : Int) : Option Int → Bool
  | none => true
  | some t => decide (ALERT_COOLDOWN < now - t)

/-- Embeds `check_for_anomaly`: prune, count, and when the count has reached
`ANOMALY_THRESHOLD` with the cooldown gate open, send the alert (the `Bool`
result) and set `last_alert_time := now`. -/
def check_for_anomaly (now : Int) (st : AnomalyState) : AnomalyState × Bool :=
  let cleaned := cleanup_global_attempts now st.global_payment_attempts
  let recent_count := cleaned.length
  if ANOMALY_THRESHOLD ≤ recent_count then
    if cooldown_elapsed now st.last_alert_time then
      (⟨cleaned, some now⟩, true)
    else
      (⟨cleaned, st.last_alert_time⟩, false)
  else
    (⟨cleaned, st.last_alert_time⟩, false)

/-- Embeds `record_payment_attempt(ip)`: append `now` to the per-IP deque,
append `(now, ip)` to the global deque, then run `check_for_anomaly`.
Returns the new per-IP deque, the new detector state, and whether a security
alert was sent on this call. -/
def record_payment_attempt (now : Int) (ip : String) (attempts : List Int)
    (st : AnomalyState) : List Int × AnomalyState × Bool :=
  let attempts := attempts ++ [now]
  let st1 : AnomalyState :=
    ⟨st.global_payment_attempts ++ [⟨now, ip⟩], st.last_alert_time⟩
  let (st2, alerted) := check_for_anomaly now st1
  (attempts, st2, alerted)

/-- Count of global attempts whose timestamp lies within the last
`ANOMALY_WINDOW` seconds (the burst window of spec §4.2). -/
def global_attempts_within (now : Int) (l : List GlobalAttempt) : Nat :=
  (l.filter (fun a => now - ANOMALY_WINDOW ≤ a.timestamp)).length

/-! ## Admin sessions (src/app/main.py lines 202-222) -/

/-- The `admin_sessions` dict: session id → creation time (`time.time()`). -/
def AdminSessions : Type := String → Option Int

/-- Embeds `is_admin_authenticated(session_id)`: `False` on a falsy or unknown
id; a stored session older than 3600 seconds is deleted from the dict and
rejected; otherwise `True`. Returns the updated dict alongside the verdict. -/
def is_admin_authenticated (now : Int) (session_id : String)
    (sessions : AdminSessions) : Bool × AdminSessions :=
  if session_id = "" then
    (false, sessions)
  else
    match sessions session_id with
    | none => (false, sessions)
    | some session_time =>
        if 3600 < now - session_time then
          (false, fun s => if s = session_id then none else sessions s)
        else
          (true, sessions)

/-- Embeds `create_admin_session`: `secrets.token_hex(32)` is modelled as a
caller-supplied fresh token (64 hex characters, hence nonempty). -/
def create_admin_session (now : Int) (token : String)
    (sessions : AdminSessions) : String × AdminSessions :=
  (token, fun s => if s = token then some now else sessions s)

/-! ## Order settlement (src/app/main.py lines 359-372, 648-778, 1260-1381)

The ledger functions `create_order`, `update_order_payment_status` and
`get_order_by_id` are imported in main.py from `app.database` but are not
present in the provided `src/app/database.py`; they are modelled below from
spec §4.4 (OrderLedger contract). -/

/-- The `TicketItem` pydantic model. -/
structure TicketItem where
  ticket_type_id : Nat
  quantity : Int
  price_per_ticket_cents : Int
deriving Repr, DecidableEq

/-- The `PaymentRequest` pydantic model. -/
structure PaymentRequest where
  source_id : String
  amount : Int
  currency : String
  buyer_email : String
  buyer_first_name : String
  buyer_last_name : String
  recital_id : Nat
  ticket_items : List TicketItem
deriving Repr, DecidableEq

/-- One line item of a persisted order (the `order_items` dicts). -/
structure OrderItem where
  ticket_type_id : Nat
  quantity : Int
  price_per_ticket_cents : Int
deriving Repr, DecidableEq

/-- A persisted order row (the `order_data` dict of `process_payment`,
together with its line items, which `create_order` persists atomically). -/
structure Order where
  recital_id : Nat
  buyer_email : String
  buyer_name : String
  total_amount_cents : Int
  payment_status : String
  square_payment_id : Option String
  notes : String
  items : List OrderItem
deriving Repr, DecidableEq

instance : Inhabited Order :=
  ⟨⟨0, "", "", 0, "", none, "", []⟩⟩

/-- A recital row, reduced to the fields the payment endpoints read. -/
structure Recital where
  title : String
  artist_name : String
  event_date : String
deriving Repr, DecidableEq

/-- Read-only database environment: `get_recital_by_id` and the `name` field
of `get_ticket_type_by_id`. -/
structure Env where
  recitals : Nat → Option Recital
  ticket_type_name : Nat → Option String

/-- A successful-side Square payment object (`result.payment`). -/
structure Payment where
  id : String
  status : String
  amount : Int
  receipt_url : String
deriving Repr, DecidableEq

/-- The object returned by `client.payments.create`: an error list (each
entry standing for `error.detail`) and an optional payment object. -/
structure SquareResult where
  errors : List String
  payment : Option Payment
deriving Repr, DecidableEq

/-- Behavior of one `client.payments.create` call: the call either raises an
exception or returns a `SquareResult`. -/
inductive GatewayBehavior where
  | raises
  | returns (result : SquareResult)
deriving Repr, DecidableEq

/-- Record of one gateway invocation, with the arguments main.py passes to
`client.payments.create`. `str(uuid.uuid4())` is modelled as an injective
fresh-key supply (a per-process counter), capturing that each call draws a
key never produced before. -/
structure GatewayCall where
  source_id : String
  idempotency_key : Nat
  amount : Int
  currency : String
  buyer_email_address : String
  note : String
deriving Repr, DecidableEq

/-- The full mutable process state touched by the two payment endpoints. -/
structure SysState where
  payment_attempts : String → List Int
  anomaly : AnomalyState
  orders : Nat → Option Order
  next_order_id : Nat
  key_counter : Nat

/-- The response dict of the payment endpoints; keys absent from a given
return statement are `none`/`false` here. -/
structure ApiResponse where
  success : Bool
  message : String
  rate_limited : Bool := false
  errors : Option (List String) := none
  order_id : Option Nat := none
  payment_id : Option String := none
  status : Option String := none
  amount : Option Int := none
  receipt_url : Option String := none
deriving Repr, DecidableEq

/-- Modelled from the spec: `create_order(order_data, order_items)` is the
OrderLedger `createWithItems` operation of spec §4.4 — it atomically persists
the order together with all its items under a fresh identifier and returns
the identifier. Identifiers are issued from a counter starting at 1. -/
def create_order (st : SysState) (order_data : Order) : Nat × SysState :=
  let oid := st.next_order_id
  (oid,
   { st with
     orders := fun i => if i = oid then some order_data else st.orders i
     next_order_id := oid + 1 })

/-- Modelled from the spec: `update_order_payment_status(order_id, status,
square_payment_id=None)` is the OrderLedger `updateStatus(orderId, status,
externalRef?)` operation of spec §4.4: it sets the payment status and, when
an external reference is supplied, stores it; an absent reference leaves the
stored one unchanged. -/
def update_order_payment_status (orders : Nat → Option Order) (oid : Nat)
    (status : String) (square_payment_id : Option String) :
    Nat → Option Order :=
  fun i =>
    if i = oid then
      match orders i with
      | none => none
      | some o =>
          some { o with
                 payment_status := status
                 square_payment_id :=
                   match square_payment_id with
                   | some p => some p
                   | none => o.square_payment_id }
    else orders i

/-- Modelled from the spec: `get_order_by_id` is the OrderLedger
`getById(orderId) -> Order?` operation of spec §4.4. (The real query also
joins in `recital_title`; the retry endpoint below recovers that field from
`Env.recitals` instead.) -/
def get_order_by_id (st : SysState) (oid : Nat) : Option Order :=
  st.orders oid

/-- Python string slicing `s[:500]`, by characters. -/
def pyTake (n : Nat) (s : String) : String :=
  String.mk (s.data.take n)

/-- Embeds the `POST /process-payment` handler `process_payment`. Parameters:
the database environment, the behavior of the (single possible) gateway call,
the current time, `request.client.host`, the parsed `PaymentRequest` body and
the process state. Returns the response dict, the new state, and the list of
gateway invocations made (empty or a singleton). -/
def process_payment (env : Env) (gw : GatewayBehavior) (now : Int)
    (client_ip : String) (payment_request : PaymentRequest) (st : SysState) :
    ApiResponse × SysState × List GatewayCall :=
  let checked := check_rate_limit now (st.payment_attempts client_ip)
  let allowed := checked.1.1
  let error_message := checked.1.2
  let st := { st with
              payment_attempts :=
                fun ip => if ip = client_ip then checked.2
                          else st.payment_attempts ip }
  if allowed = false then
    ({ success := false, message := error_message, rate_limited := true },
     st, [])
  else
    let recorded :=
      record_payment_attempt now client_ip (st.payment_attempts client_ip)
        st.anomaly
    let st := { st with
                payment_attempts :=
                  fun ip => if ip = client_ip then recorded.1
                            else st.payment_attempts ip
                anomaly := recorded.2.1 }
    match env.recitals payment_request.recital_id with
    | none => ({ success := false, message := "Recital not found" }, st, [])
    | some recital =>
      let order_items := payment_request.ticket_items.map
        (fun item =>
          OrderItem.mk item.ticket_type_id item.quantity
            item.price_per_ticket_cents)
      let item_descriptions := payment_request.ticket_items.filterMap
        (fun item =>
          (env.ticket_type_name item.ticket_type_id).map
            (fun name => toString item.quantity ++ "x " ++ name))
      let order_description :=
        "SSWPA: " ++ String.intercalate ", " item_descriptions ++ " for " ++
          recital.artist_name ++ " on " ++ recital.event_date
      let order_data : Order :=
        { recital_id := payment_request.recital_id
          buyer_email := payment_request.buyer_email
          buyer_name :=
            (payment_request.buyer_first_name ++ " " ++
              payment_request.buyer_last_name).trim
          total_amount_cents := payment_request.amount
          payment_status := "processing"
          square_payment_id := none
          notes := order_description
          items := order_items }
      let created := create_order st order_data
      let order_id := created.1
      let st := created.2
      if order_id = 0 then
        ({ success := false, message := "Failed to create order" }, st, [])
      else
        let idempotency_key := st.key_counter
        let st := { st with key_counter := st.key_counter + 1 }
        let call : GatewayCall :=
          { source_id := payment_request.source_id
            idempotency_key := idempotency_key
            amount := payment_request.amount
            currency := payment_request.currency
            buyer_email_address := payment_request.buyer_email
            note := pyTake 500 order_description }
        match gw with
        | .raises =>
            let st := { st with
                        orders :=
                          update_order_payment_status st.orders order_id
                            "failed" none }
            ({ success := false
               message := "An error occurred while processing your payment."
               order_id := some order_id }, st, [call])
        | .returns result =>
            if result.errors ≠ [] then
              let st := { st with
                          orders :=
                            update_order_payment_status st.orders order_id
                              "failed" none }
              ({ success := false
                 errors := some result.errors
                 message := "Payment failed. Please try again."
                 order_id := some order_id }, st, [call])
            else
              match result.payment with
              | none =>
                  let st := { st with
                              orders :=
                                update_order_payment_status st.orders
                                  order_id "failed" none }
                  ({ success := false
                     message :=
                       "An error occurred while processing your payment."
                     order_id := some order_id }, st, [call])
              | some payment =>
                  let st := { st with
                              orders :=
                                update_order_payment_status st.orders
                                  order_id "completed" (some payment.id) }
                  ({ success := true
                     payment_id := some payment.id
                     order_id := some order_id
                     status := some payment.status
                     amount := some payment.amount
                     receipt_url := some payment.receipt_url
                     message := "Payment processed successfully!" },
                   st, [call])

/-- Truthiness of `body.get("order_id")`: falsy when missing or `0`. -/
def order_id_falsy : Option Nat → Bool
  | none => true
  | some oid => decide (oid = 0)

/-- Truthiness of `body.get("source_id")`: falsy when missing or `""`. -/
def source_id_falsy : Option String → Bool
  | none => true
  | some src => decide (src = "")

/-- Embeds the `POST /api/retry-payment` handler `retry_payment`. The JSON
body is represented by its two looked-up fields `order_id` and `source_id`
(absent keys are `none`). Returns the response dict, the new state, and the
list of gateway invocations made. -/
def retry_payment (env : Env) (gw : GatewayBehavior) (now : Int)
    (client_ip : String) (body_order_id : Option Nat)
    (body_source_id : Option String) (st : SysState) :
    ApiResponse × SysState × List GatewayCall :=
  let checked := check_rate_limit now (st.payment_attempts client_ip)
  let allowed := checked.1.1
  let error_message := checked.1.2
  let st := { st with
              payment_attempts :=
                fun ip => if ip = client_ip then checked.2
                          else st.payment_attempts ip }
  if allowed = false then
    ({ success := false, message := error_message, rate_limited := true },
     st, [])
  else
    let recorded :=
      record_payment_attempt now client_ip (st.payment_attempts client_ip)
        st.anomaly
    let st := { st with
                payment_attempts :=
                  fun ip => if ip = client_ip then recorded.1
                            else st.payment_attempts ip
                anomaly := recorded.2.1 }
    if order_id_falsy body_order_id || source_id_falsy body_source_id then
      ({ success := false, message := "Order ID and source ID are required" },
       st, [])
    else
      let order_id := body_order_id.getD 0
      let source_id := body_source_id.getD ""
      match get_order_by_id st order_id with
      | none =>
          ({ success := false
             message := "Order " ++ toString order_id ++ " not found" },
           st, [])
      | some order_data =>
        if ¬(order_data.payment_status = "failed" ∨
             order_data.payment_status = "processing") then
          ({ success := false, message := "Order payment cannot be retried" },
           st, [])
        else
          let idempotency_key := st.key_counter
          let st := { st with key_counter := st.key_counter + 1 }
          let recital_title :=
            match env.recitals order_data.recital_id with
            | some r => r.title
            | none => ""
          let order_description :=
            "SSWPA Retry: Order #" ++ toString order_id ++ " - " ++
              recital_title
          let call : GatewayCall :=
            { source_id := source_id
              idempotency_key := idempotency_key
              amount := order_data.total_amount_cents
              currency := "USD"
              buyer_email_address := order_data.buyer_email
              note := pyTake 500 order_description }
          match gw with
          | .raises =>
              ({ success := false
                 message :=
                   "An error occurred while processing your payment. Please try again."
                 order_id := some order_id }, st, [call])
          | .returns result =>
              let payment := result.payment
              let has_errors := decide (result.errors ≠ [])
              let payment_failed :=
                match payment with
                | some p => decide (p.status = "FAILED")
                | none => false
              if has_errors || payment_failed then
                let error_details :=
                  if has_errors then result.errors else ["Payment failed"]
                let st := { st with
                            orders :=
                              update_order_payment_status st.orders order_id
                                "failed" none }
                ({ success := false
                   errors := some error_details
                   message := "Payment retry failed. Please try again."
                   order_id := some order_id }, st, [call])
              else
                match payment with
                | none =>
                    ({ success := false
                       message :=
                         "An error occurred while processing your payment. Please try again."
                       order_id := some order_id }, st, [call])
                | some p =>
                    let st := { st with
                                orders :=
                                  update_order_payment_status st.orders
                                    order_id "completed" (some p.id) }
                    ({ success := true
                       message := "Payment completed successfully!"
                       payment_id := some p.id
                       order_id := some order_id }, st, [call])

/-! ## Traces of endpoint requests -/

/-- One inbound request, with its time, client IP, body, and the behavior
the gateway would exhibit if called. -/
inductive Op where
  | pay (gw : GatewayBehavior) (now : Int) (ip : String) (req : PaymentRequest)
  | retry (gw : GatewayBehavior) (now : Int) (ip : String)
      (oid : Option Nat) (src : Option String)

/-- Effect of one request on the process state, with the gateway calls it
made. -/
def step (env : Env) (st : SysState) : Op → SysState × List GatewayCall
  | .pay gw now ip req =>
      let r := process_payment env gw now ip req st
      (r.2.1, r.2.2)
  | .retry gw now ip oid src =>
      let r := retry_payment env gw now ip oid src st
      (r.2.1, r.2.2)

/-- Run a sequence of requests, accumulating all gateway calls in order. -/
def run (env : Env) : SysState → List Op → SysState × List GatewayCall
  | st, [] => (st, [])
  | st, op :: ops =>
      let r := step env st op
      let rest := run env r.1 ops
      (rest.1, r.2 ++ rest.2)

/-- The process state at startup: empty attempt maps, no alert ever sent, an
empty ledger with ids issued from 1, and a fresh key supply. -/
def init : SysState :=
  { payment_attempts := fun _ => []
    anomaly := ⟨[], none⟩
    orders := fun _ => none
    next_order_id := 1
    key_counter := 0 }

/-- State after running a sequence of requests from startup. -/
def runState (env : Env) (ops : List Op) : SysState :=
  (run env init ops).1

/-! ## Spec-side notions, invariants and concrete fixtures -/

/-- Ledger freshness: every id at or above the next id to be issued is
unused. Holds at startup and is preserved by both endpoints. -/
def Inv (st : SysState) : Prop :=
  ∀ i, st.next_order_id ≤ i → st.orders i = none

/-- The order-status changes the settlement endpoints actually perform. -/
def legal_settlement_change (s s2 : String) : Prop :=
  (s = "processing" ∧ s2 = "completed") ∨
  (s = "processing" ∧ s2 = "failed") ∨
  (s = "failed" ∧ s2 = "completed")

/-- The transition set named by the claim (spec §3): `processing→completed`,
`processing→failed`, and `failed`/`processing` back to `processing` via
explicit retry. -/
def claimed_transitions : List (String × String) :=
  [("processing", "completed"), ("processing", "failed"),
   ("failed", "processing"), ("processing", "processing")]

/-- The computed total of spec §4.3: the sum over items of quantity times
unit price. -/
def line_totals_sum (items : List OrderItem) : Int :=
  (items.map (fun i => i.quantity * i.price_per_ticket_cents)).sum

/-- Fixture: a database environment holding one recital under id 1 and no
ticket-type names. -/
def env₁ : Env :=
  { recitals := fun i =>
      if i = 1 then some ⟨"Recital", "Artist", "2026-01-01"⟩ else none
    ticket_type_name := fun _ => none }

/-- Fixture: a request declaring a total of 3000 cents whose items sum to
3500 cents (2 × 1000 + 3 × 500). -/
def req₁ : PaymentRequest :=
  { source_id := "cnon"
    amount := 3000
    currency := "USD"
    buyer_email := "b@x.com"
    buyer_first_name := "A"
    buyer_last_name := "B"
    recital_id := 1
    ticket_items := [⟨1, 2, 1000⟩, ⟨2, 3, 500⟩] }

/-- Fixture: the gateway declines with an explicit error list. -/
def gwDecline : GatewayBehavior := .returns ⟨["CARD_DECLINED"], none⟩

/-- Fixture: the gateway succeeds with payment `sq_123`. -/
def gwOk : GatewayBehavior :=
  .returns ⟨[], some ⟨"sq_123", "COMPLETED", 3000, "https://receipt"⟩⟩

/-- Fixture: the gateway returns no error list but a payment object whose
status reports `FAILED`. -/
def gwFailedStatus : GatewayBehavior :=
  .returns ⟨[], some ⟨"sq_9", "FAILED", 3000, "https://receipt"⟩⟩

/-- Fixture: an order stuck in `processing` (as after a crash between the
gateway call and the status update). -/
def procOrder : Order :=
  ⟨1, "b@x.com", "A B", 3000, "processing", none, "", []⟩

/-- Fixture: a state holding only `procOrder` under id 1. -/
def stProc : SysState :=
  { init with
    orders := fun i => if i = 1 then some procOrder else none
    next_order_id := 2 }

/-! ## Helper lemmas -/

/-- Dropping the stale prefix of a chronologically sorted deque equals
filtering out every stale entry. -/
theorem dropWhile_old_eq_filter (c : Int) :
    ∀ l : List GlobalAttempt,
      l.Pairwise (fun a b => a.timestamp ≤ b.timestamp) →
      l.dropWhile (fun a => a.timestamp < c) =
        l.filter (fun a => c ≤ a.timestamp) := by
  intro l
  induction l with
  | nil => simp
  | cons a l ih =>
      intro h
      rw [List.pairwise_cons] at h
      by_cases hac : a.timestamp < c
      · have : ¬ (c ≤ a.timestamp) := by omega
        simp only [List.dropWhile, List.filter, hac, this]
        simp only [decide_True, decide_False]
        exact ih h.2
      · have hca : c ≤ a.timestamp := by omega
        simp only [List.dropWhile, List.filter]
        simp [hac, hca]
        symm
        rw [List.filter_eq_self]
        intro b hb
        have := h.1 b hb
        simp
        omega

/-- The cooldown gate is open exactly when no alert was ever sent or more
than `ALERT_COOLDOWN` seconds have elapsed since the last one. -/
theorem cooldown_elapsed_iff (now : Int) (o : Option Int) :
    cooldown_elapsed now o = true ↔
      (o = none ∨ ∃ t, o = some t ∧ ALERT_COOLDOWN < now - t) := by
  cases o with
  | none => simp [cooldown_elapsed]
  | some t => simp [cooldown_elapsed, ALERT_COOLDOWN]

/-! ## Branch lemmas for the two endpoints -/

theorem process_orders_shape (env : Env) (gw : GatewayBehavior) (now : Int)
    (ip : String) (req : PaymentRequest) (st : SysState) :
    ((process_payment env gw now ip req st).2.1.next_order_id =
        st.next_order_id ∧
      (process_payment env gw now ip req st).2.1.orders = st.orders) ∨
    ((process_payment env gw now ip req st).2.1.next_order_id =
        st.next_order_id + 1 ∧
      ∀ i, i ≠ st.next_order_id →
        (process_payment env gw now ip req st).2.1.orders i = st.orders i) := by
  simp only [process_payment]
  repeat' split
  all_goals first
    | exact Or.inl ⟨rfl, rfl⟩
    | exact Or.inr ⟨by simp [create_order], fun i hi => by
        simp [create_order, update_order_payment_status, hi]⟩

theorem retry_next_id (env : Env) (gw : GatewayBehavior) (now : Int)
    (ip : String) (oid? : Option Nat) (src? : Option String) (st : SysState) :
    (retry_payment env gw now ip oid? src? st).2.1.next_order_id =
      st.next_order_id := by
  simp only [retry_payment]
  repeat' split
  all_goals rfl

theorem process_raises_spec (env : Env) (now : Int) (ip : String)
    (req : PaymentRequest) (st : SysState) (recital : Recital)
    (hallow : (check_rate_limit now (st.payment_attempts ip)).1.1 = true)
    (hrec : env.recitals req.recital_id = some recital)
    (hnz : st.next_order_id ≠ 0) :
    (process_payment env .raises now ip req st).1 =
      { success := false
        message := "An error occurred while processing your payment."
        order_id := some st.next_order_id } ∧
    ((process_payment env .raises now ip req st).2.1.orders
        st.next_order_id).map Order.payment_status = some "failed" ∧
    ((process_payment env .raises now ip req st).2.1.orders
        st.next_order_id).map Order.square_payment_id = some none ∧
    ((process_payment env .raises now ip req st).2.1.orders
        st.next_order_id).map Order.total_amount_cents = some req.amount ∧
    ((process_payment env .raises now ip req st).2.1.orders
        st.next_order_id).map Order.items = some (req.ticket_items.map
        (fun i => ⟨i.ticket_type_id, i.quantity, i.price_per_ticket_cents⟩)) ∧
    (∀ i, i ≠ st.next_order_id →
      (process_payment env .raises now ip req st).2.1.orders i =
        st.orders i) ∧
    (process_payment env .raises now ip req st).2.1.next_order_id =
      st.next_order_id + 1 ∧
    (process_payment env .raises now ip req st).2.1.key_counter =
      st.key_counter + 1 ∧
    (process_payment env .raises now ip req st).2.2.map
      GatewayCall.idempotency_key = [st.key_counter] ∧
    (process_payment env .raises now ip req st).2.2.map
      GatewayCall.amount = [req.amount] ∧
    (process_payment env .raises now ip req st).2.2.map
      GatewayCall.currency = [req.currency] ∧
    (process_payment env .raises now ip req st).2.2.map
      GatewayCall.buyer_email_address = [req.buyer_email] ∧
    (process_payment env .raises now ip req st).2.2.map
      GatewayCall.source_id = [req.source_id] := by
  refine ⟨?_, ?_, ?_, ?_, ?_, ?_, ?_, ?_, ?_, ?_, ?_, ?_, ?_⟩ <;>
    first
      | (intro i hi
         simp [process_payment, hallow, hrec, create_order,
           update_order_payment_status, hnz, hi])
      | simp [process_payment, hallow, hrec, create_order,
          update_order_payment_status, hnz]

theorem process_denied_spec (env : Env) (gw : GatewayBehavior) (now : Int)
    (ip : String) (req : PaymentRequest) (st : SysState)
    (hallow : (check_rate_limit now (st.payment_attempts ip)).1.1 = false) :
    (process_payment env gw now ip req st).2.1.orders = st.orders ∧
    (process_payment env gw now ip req st).2.1.next_order_id =
      st.next_order_id ∧
    (process_payment env gw now ip req st).2.1.key_counter =
      st.key_counter ∧
    (process_payment env gw now ip req st).2.2 = [] := by
  refine ⟨?_, ?_, ?_, ?_⟩ <;> simp [process_payment, hallow]

theorem process_norecital_spec (env : Env) (gw : GatewayBehavior) (now : Int)
    (ip : String) (req : PaymentRequest) (st : SysState)
    (hallow : (check_rate_limit now (st.payment_attempts ip)).1.1 = true)
    (hrec : env.recitals req.recital_id = none) :
    (process_payment env gw now ip req st).2.1.orders = st.orders ∧
    (process_payment env gw now ip req st).2.1.next_order_id =
      st.next_order_id ∧
    (process_payment env gw now ip req st).2.1.key_counter =
      st.key_counter ∧
    (process_payment env gw now ip req st).2.2 = [] := by
  refine ⟨?_, ?_, ?_, ?_⟩ <;> simp [process_payment, hallow, hrec]

theorem process_id0_spec (env : Env) (gw : GatewayBehavior) (now : Int)
    (ip : String) (req : PaymentRequest) (st : SysState) (recital : Recital)
    (hallow : (check_rate_limit now (st.payment_attempts ip)).1.1 = true)
    (hrec : env.recitals req.recital_id = some recital)
    (hz : st.next_order_id = 0) :
    (∀ i, i ≠ st.next_order_id →
      (process_payment env gw now ip req st).2.1.orders i = st.orders i) ∧
    (process_payment env gw now ip req st).2.1.next_order_id =
      st.next_order_id + 1 ∧
    (process_payment env gw now ip req st).2.1.key_counter =
      st.key_counter ∧
    (process_payment env gw now ip req st).2.2 = [] := by
  refine ⟨?_, ?_, ?_, ?_⟩ <;>
    first
      | (intro i hi
         rw [hz] at hi
         simp [process_payment, hallow, hrec, create_order, hz, hi])
      | simp [process_payment, hallow, hrec, create_order, hz]

theorem process_errors_spec (env : Env) (now : Int) (ip : String)
    (req : PaymentRequest) (st : SysState) (recital : Recital)
    (result : SquareResult)
    (hallow : (check_rate_limit now (st.payment_attempts ip)).1.1 = true)
    (hrec : env.recitals req.recital_id = some recital)
    (hnz : st.next_order_id ≠ 0)
    (herr : result.errors ≠ []) :
    (process_payment env (.returns result) now ip req st).1 =
      { success := false
        errors := some result.errors
        message := "Payment failed. Please try again."
        order_id := some st.next_order_id } ∧
    ((process_payment env (.returns result) now ip req st).2.1.orders
        st.next_order_id).map Order.payment_status = some "failed" ∧
    ((process_payment env (.returns result) now ip req st).2.1.orders
        st.next_order_id).map Order.square_payment_id = some none ∧
    ((process_payment env (.returns result) now ip req st).2.1.orders
        st.next_order_id).map Order.total_amount_cents = some req.amount ∧
    ((process_payment env (.returns result) now ip req st).2.1.orders
        st.next_order_id).map Order.items = some (req.ticket_items.map
        (fun i => ⟨i.ticket_type_id, i.quantity, i.price_per_ticket_cents⟩)) ∧
    (∀ i, i ≠ st.next_order_id →
      (process_payment env (.returns result) now ip req st).2.1.orders i =
        st.orders i) ∧
    (process_payment env (.returns result) now ip req st).2.1.next_order_id =
      st.next_order_id + 1 ∧
    (process_payment env (.returns result) now ip req st).2.1.key_counter =
      st.key_counter + 1 ∧
    (process_payment env (.returns result) now ip req st).2.2.map
      GatewayCall.idempotency_key = [st.key_counter] := by
  refine ⟨?_, ?_, ?_, ?_, ?_, ?_, ?_, ?_, ?_⟩ <;>
    first
      | (intro i hi
         simp [process_payment, hallow, hrec, create_order,
           update_order_payment_status, hnz, herr, hi])
      | simp [process_payment, hallow, hrec, create_order,
          update_order_payment_status, hnz, herr]

theorem process_nopayment_spec (env : Env) (now : Int) (ip : String)
    (req : PaymentRequest) (st : SysState) (recital : Recital)
    (result : SquareResult)
    (hallow : (check_rate_limit now (st.payment_attempts ip)).1.1 = true)
    (hrec : env.recitals req.recital_id = some recital)
    (hnz : st.next_order_id ≠ 0)
    (herr : result.errors = []) (hpay : result.payment = none) :
    (process_payment env (.returns result) now ip req st).1 =
      { success := false
        message := "An error occurred while processing your payment."
        order_id := some st.next_order_id } ∧
    ((process_payment env (.returns result) now ip req st).2.1.orders
        st.next_order_id).map Order.payment_status = some "failed" ∧
    ((process_payment env (.returns result) now ip req st).2.1.orders
        st.next_order_id).map Order.total_amount_cents = some req.amount ∧
    ((process_payment env (.returns result) now ip req st).2.1.orders
        st.next_order_id).map Order.items = some (req.ticket_items.map
        (fun i => ⟨i.ticket_type_id, i.quantity, i.price_per_ticket_cents⟩)) ∧
    (∀ i, i ≠ st.next_order_id →
      (process_payment env (.returns result) now ip req st).2.1.orders i =
        st.orders i) ∧
    (process_payment env (.returns result) now ip req st).2.1.next_order_id =
      st.next_order_id + 1 ∧
    (process_payment env (.returns result) now ip req st).2.1.key_counter =
      st.key_counter + 1 ∧
    (process_payment env (.returns result) now ip req st).2.2.map
      GatewayCall.idempotency_key = [st.key_counter] := by
  refine ⟨?_, ?_, ?_, ?_, ?_, ?_, ?_, ?_⟩ <;>
    first
      | (intro i hi
         simp [process_payment, hallow, hrec, create_order,
           update_order_payment_status, hnz, herr, hpay, hi])
      | simp [process_payment, hallow, hrec, create_order,
          update_order_payment_status, hnz, herr, hpay]

theorem process_success_spec (env : Env) (now : Int) (ip : String)
    (req : PaymentRequest) (st : SysState) (recital : Recital)
    (result : SquareResult) (p : Payment)
    (hallow : (check_rate_limit now (st.payment_attempts ip)).1.1 = true)
    (hrec : env.recitals req.recital_id = some recital)
    (hnz : st.next_order_id ≠ 0)
    (herr : result.errors = []) (hpay : result.payment = some p) :
    (process_payment env (.returns result) now ip req st).1 =
      { success := true
        payment_id := some p.id
        order_id := some st.next_order_id
        status := some p.status
        amount := some p.amount
        receipt_url := some p.receipt_url
        message := "Payment processed successfully!" } ∧
    ((process_payment env (.returns result) now ip req st).2.1.orders
        st.next_order_id).map Order.payment_status = some "completed" ∧
    ((process_payment env (.returns result) now ip req st).2.1.orders
        st.next_order_id).map Order.square_payment_id = some (some p.id) ∧
    ((process_payment env (.returns result) now ip req st).2.1.orders
        st.next_order_id).map Order.total_amount_cents = some req.amount ∧
    ((process_payment env (.returns result) now ip req st).2.1.orders
        st.next_order_id).map Order.items = some (req.ticket_items.map
        (fun i => ⟨i.ticket_type_id, i.quantity, i.price_per_ticket_cents⟩)) ∧
    (∀ i, i ≠ st.next_order_id →
      (process_payment env (.returns result) now ip req st).2.1.orders i =
        st.orders i) ∧
    (process_payment env (.returns result) now ip req st).2.1.next_order_id =
      st.next_order_id + 1 ∧
    (process_payment env (.returns result) now ip req st).2.1.key_counter =
      st.key_counter + 1 ∧
    (process_payment env (.returns result) now ip req st).2.2.map
      GatewayCall.idempotency_key = [st.key_counter] := by
  refine ⟨?_, ?_, ?_, ?_, ?_, ?_, ?_, ?_, ?_⟩ <;>
    first
      | (intro i hi
         simp [process_payment, hallow, hrec, create_order,
           update_order_payment_status, hnz, herr, hpay, hi])
      | simp [process_payment, hallow, hrec, create_order,
          update_order_payment_status, hnz, herr, hpay]

theorem retry_denied_spec (env : Env) (gw : GatewayBehavior) (now : Int)
    (ip : String) (oid? : Option Nat) (src? : Option String) (st : SysState)
    (hallow : (check_rate_limit now (st.payment_attempts ip)).1.1 = false) :
    (retry_payment env gw now ip oid? src? st).2.1.orders = st.orders ∧
    (retry_payment env gw now ip oid? src? st).2.1.key_counter =
      st.key_counter ∧
    (retry_payment env gw now ip oid? src? st).2.2 = [] := by
  refine ⟨?_, ?_, ?_⟩ <;> simp [retry_payment, hallow]

theorem retry_falsy_spec (env : Env) (gw : GatewayBehavior) (now : Int)
    (ip : String) (oid? : Option Nat) (src? : Option String) (st : SysState)
    (hallow : (check_rate_limit now (st.payment_attempts ip)).1.1 = true)
    (hfalsy : (order_id_falsy oid? || source_id_falsy src?) = true) :
    (retry_payment env gw now ip oid? src? st).2.1.orders = st.orders ∧
    (retry_payment env gw now ip oid? src? st).2.1.key_counter =
      st.key_counter ∧
    (retry_payment env gw now ip oid? src? st).2.2 = [] := by
  refine ⟨?_, ?_, ?_⟩ <;> simp [retry_payment, hallow, hfalsy]

theorem retry_notfound_spec (env : Env) (gw : GatewayBehavior) (now : Int)
    (ip : String) (oid? : Option Nat) (src? : Option String) (st : SysState)
    (hallow : (check_rate_limit now (st.payment_attempts ip)).1.1 = true)
    (hfalsy : (order_id_falsy oid? || source_id_falsy src?) = false)
    (horder : st.orders (oid?.getD 0) = none) :
    (retry_payment env gw now ip oid? src? st).2.1.orders = st.orders ∧
    (retry_payment env gw now ip oid? src? st).2.1.key_counter =
      st.key_counter ∧
    (retry_payment env gw now ip oid? src? st).2.2 = [] := by
  refine ⟨?_, ?_, ?_⟩ <;>
    simp [retry_payment, hallow, hfalsy, get_order_by_id, horder]

theorem retry_badstate_spec (env : Env) (gw : GatewayBehavior) (now : Int)
    (ip : String) (oid? : Option Nat) (src? : Option String) (st : SysState)
    (o : Order)
    (hallow : (check_rate_limit now (st.payment_attempts ip)).1.1 = true)
    (hfalsy : (order_id_falsy oid? || source_id_falsy src?) = false)
    (horder : st.orders (oid?.getD 0) = some o)
    (hguard : ¬(o.payment_status = "failed" ∨
      o.payment_status = "processing")) :
    (retry_payment env gw now ip oid? src? st).2.1.orders = st.orders ∧
    (retry_payment env gw now ip oid? src? st).2.1.key_counter =
      st.key_counter ∧
    (retry_payment env gw now ip oid? src? st).2.2 = [] := by
  refine ⟨?_, ?_, ?_⟩ <;>
    simp [retry_payment, hallow, hfalsy, get_order_by_id, horder, hguard]

theorem retry_raises_spec (env : Env) (now : Int) (ip : String) (oid : Nat)
    (src : String) (st : SysState) (o : Order)
    (hallow : (check_rate_limit now (st.payment_attempts ip)).1.1 = true)
    (hoid : oid ≠ 0) (hsrc : src ≠ "")
    (horder : st.orders oid = some o)
    (hguard : o.payment_status = "failed" ∨
      o.payment_status = "processing") :
    (retry_payment env .raises now ip (some oid) (some src) st).1 =
      { success := false
        message :=
          "An error occurred while processing your payment. Please try again."
        order_id := some oid } ∧
    (retry_payment env .raises now ip (some oid) (some src) st).2.1.orders =
      st.orders ∧
    (retry_payment env .raises now ip (some oid) (some src)
        st).2.1.key_counter = st.key_counter + 1 ∧
    (retry_payment env .raises now ip (some oid) (some src) st).2.2.map
      GatewayCall.idempotency_key = [st.key_counter] ∧
    (retry_payment env .raises now ip (some oid) (some src) st).2.2.map
      GatewayCall.amount = [o.total_amount_cents] ∧
    (retry_payment env .raises now ip (some oid) (some src) st).2.2.map
      GatewayCall.currency = ["USD"] ∧
    (retry_payment env .raises now ip (some oid) (some src) st).2.2.map
      GatewayCall.buyer_email_address = [o.buyer_email] ∧
    (retry_payment env .raises now ip (some oid) (some src) st).2.2.map
      GatewayCall.source_id = [src] := by
  refine ⟨?_, ?_, ?_, ?_, ?_, ?_, ?_, ?_⟩ <;>
    simp [retry_payment, hallow, order_id_falsy, source_id_falsy, hoid,
      hsrc, get_order_by_id, horder, hguard]

theorem retry_fail_errors_spec (env : Env) (now : Int) (ip : String)
    (oid : Nat) (src : String) (st : SysState) (o : Order)
    (result : SquareResult)
    (hallow : (check_rate_limit now (st.payment_attempts ip)).1.1 = true)
    (hoid : oid ≠ 0) (hsrc : src ≠ "")
    (horder : st.orders oid = some o)
    (hguard : o.payment_status = "failed" ∨ o.payment_status = "processing")
    (herr : result.errors ≠ []) :
    (retry_payment env (.returns result) now ip (some oid) (some src) st).1 =
      { success := false
        errors := some result.errors
        message := "Payment retry failed. Please try again."
        order_id := some oid } ∧
    ((retry_payment env (.returns result) now ip (some oid) (some src)
        st).2.1.orders oid).map Order.payment_status = some "failed" ∧
    ((retry_payment env (.returns result) now ip (some oid) (some src)
        st).2.1.orders oid).map Order.square_payment_id =
      some o.square_payment_id ∧
    (∀ i, i ≠ oid →
      (retry_payment env (.returns result) now ip (some oid) (some src)
        st).2.1.orders i = st.orders i) ∧
    (retry_payment env (.returns result) now ip (some oid) (some src)
      st).2.1.key_counter = st.key_counter + 1 ∧
    (retry_payment env (.returns result) now ip (some oid) (some src)
      st).2.2.map GatewayCall.idempotency_key = [st.key_counter] := by
  refine ⟨?_, ?_, ?_, ?_, ?_, ?_⟩ <;>
    first
      | (intro i hi
         simp [retry_payment, hallow, order_id_falsy, source_id_falsy,
           hoid, hsrc, get_order_by_id, horder, hguard, herr,
           update_order_payment_status, hi])
      | simp [retry_payment, hallow, order_id_falsy, source_id_falsy, hoid,
          hsrc, get_order_by_id, horder, hguard, herr,
          update_order_payment_status]

theorem retry_fail_status_spec (env : Env) (now : Int) (ip : String)
    (oid : Nat) (src : String) (st : SysState) (o : Order)
    (result : SquareResult) (p : Payment)
    (hallow : (check_rate_limit now (st.payment_attempts ip)).1.1 = true)
    (hoid : oid ≠ 0) (hsrc : src ≠ "")
    (horder : st.orders oid = some o)
    (hguard : o.payment_status = "failed" ∨ o.payment_status = "processing")
    (herr : result.errors = []) (hpay : result.payment = some p)
    (hfailed : p.status = "FAILED") :
    (retry_payment env (.returns result) now ip (some oid) (some src) st).1 =
      { success := false
        errors := some ["Payment failed"]
        message := "Payment retry failed. Please try again."
        order_id := some oid } ∧
    ((retry_payment env (.returns result) now ip (some oid) (some src)
        st).2.1.orders oid).map Order.payment_status = some "failed" ∧
    (∀ i, i ≠ oid →
      (retry_payment env (.returns result) now ip (some oid) (some src)
        st).2.1.orders i = st.orders i) ∧
    (retry_payment env (.returns result) now ip (some oid) (some src)
      st).2.1.key_counter = st.key_counter + 1 ∧
    (retry_payment env (.returns result) now ip (some oid) (some src)
      st).2.2.map GatewayCall.idempotency_key = [st.key_counter] := by
  refine ⟨?_, ?_, ?_, ?_, ?_⟩ <;>
    first
      | (intro i hi
         simp [retry_payment, hallow, order_id_falsy, source_id_falsy,
           hoid, hsrc, get_order_by_id, horder, hguard, herr, hpay, hfailed,
           update_order_payment_status, hi])
      | simp [retry_payment, hallow, order_id_falsy, source_id_falsy, hoid,
          hsrc, get_order_by_id, horder, hguard, herr, hpay, hfailed,
          update_order_payment_status]

theorem retry_nopayment_spec (env : Env) (now : Int) (ip : String)
    (oid : Nat) (src : String) (st : SysState) (o : Order)
    (result : SquareResult)
    (hallow : (check_rate_limit now (st.payment_attempts ip)).1.1 = true)
    (hoid : oid ≠ 0) (hsrc : src ≠ "")
    (horder : st.orders oid = some o)
    (hguard : o.payment_status = "failed" ∨ o.payment_status = "processing")
    (herr : result.errors = []) (hpay : result.payment = none) :
    (retry_payment env (.returns result) now ip (some oid) (some src) st).1 =
      { success := false
        message :=
          "An error occurred while processing your payment. Please try again."
        order_id := some oid } ∧
    (retry_payment env (.returns result) now ip (some oid) (some src)
      st).2.1.orders = st.orders ∧
    (retry_payment env (.returns result) now ip (some oid) (some src)
      st).2.1.key_counter = st.key_counter + 1 ∧
    (retry_payment env (.returns result) now ip (some oid) (some src)
      st).2.2.map GatewayCall.idempotency_key = [st.key_counter] := by
  refine ⟨?_, ?_, ?_, ?_⟩ <;>
    simp [retry_payment, hallow, order_id_falsy, source_id_falsy, hoid,
      hsrc, get_order_by_id, horder, hguard, herr, hpay]

theorem retry_success_spec (env : Env) (now : Int) (ip : String)
    (oid : Nat) (src : String) (st : SysState) (o : Order)
    (result : SquareResult) (p : Payment)
    (hallow : (check_rate_limit now (st.payment_attempts ip)).1.1 = true)
    (hoid : oid ≠ 0) (hsrc : src ≠ "")
    (horder : st.orders oid = some o)
    (hguard : o.payment_status = "failed" ∨ o.payment_status = "processing")
    (herr : result.errors = []) (hpay : result.payment = some p)
    (hok : p.status ≠ "FAILED") :
    (retry_payment env (.returns result) now ip (some oid) (some src) st).1 =
      { success := true
        message := "Payment completed successfully!"
        payment_id := some p.id
        order_id := some oid } ∧
    ((retry_payment env (.returns result) now ip (some oid) (some src)
        st).2.1.orders oid).map Order.payment_status = some "completed" ∧
    ((retry_payment env (.returns result) now ip (some oid) (some src)
        st).2.1.orders oid).map Order.square_payment_id =
      some (some p.id) ∧
    (∀ i, i ≠ oid →
      (retry_payment env (.returns result) now ip (some oid) (some src)
        st).2.1.orders i = st.orders i) ∧
    (retry_payment env (.returns result) now ip (some oid) (some src)
      st).2.1.key_counter = st.key_counter + 1 ∧
    (retry_payment env (.returns result) now ip (some oid) (some src)
      st).2.2.map GatewayCall.idempotency_key = [st.key_counter] := by
  refine ⟨?_, ?_, ?_, ?_, ?_, ?_⟩ <;>
    first
      | (intro i hi
         simp [retry_payment, hallow, order_id_falsy, source_id_falsy,
           hoid, hsrc, get_order_by_id, horder, hguard, herr, hpay, hok,
           update_order_payment_status, hi])
      | simp [retry_payment, hallow, order_id_falsy, source_id_falsy, hoid,
          hsrc, get_order_by_id, horder, hguard, herr, hpay, hok,
          update_order_payment_status]

theorem process_calls_total (env : Env) (gw : GatewayBehavior) (now : Int)
    (ip : String) (req : PaymentRequest) (st : SysState) :
    ((process_payment env gw now ip req st).2.2 = [] ∧
      (process_payment env gw now ip req st).2.1.key_counter =
        st.key_counter) ∨
    ((process_payment env gw now ip req st).2.2.map
        GatewayCall.idempotency_key = [st.key_counter] ∧
      (process_payment env gw now ip req st).2.1.key_counter =
        st.key_counter + 1) := by
  simp only [process_payment]
  repeat' split
  all_goals first
    | exact Or.inl ⟨rfl, rfl⟩
    | exact Or.inr ⟨by simp [create_order], by simp [create_order]⟩

theorem retry_step_total (env : Env) (gw : GatewayBehavior) (now : Int)
    (ip : String) (oid? : Option Nat) (src? : Option String) (st : SysState) :
    ((retry_payment env gw now ip oid? src? st).2.1.orders = st.orders ∨
      ∃ oid o, oid? = some oid ∧ st.orders oid = some o ∧
        (o.payment_status = "failed" ∨ o.payment_status = "processing") ∧
        (∀ i, i ≠ oid →
          (retry_payment env gw now ip oid? src? st).2.1.orders i =
            st.orders i) ∧
        (((retry_payment env gw now ip oid? src? st).2.1.orders oid).map
            Order.payment_status = some "failed" ∨
          ((retry_payment env gw now ip oid? src? st).2.1.orders oid).map
            Order.payment_status = some "completed")) ∧
    (((retry_payment env gw now ip oid? src? st).2.2 = [] ∧
        (retry_payment env gw now ip oid? src? st).2.1.key_counter =
          st.key_counter) ∨
      ((retry_payment env gw now ip oid? src? st).2.2.map
          GatewayCall.idempotency_key = [st.key_counter] ∧
        (retry_payment env gw now ip oid? src? st).2.1.key_counter =
          st.key_counter + 1)) := by
  cases hallow : (check_rate_limit now (st.payment_attempts ip)).1.1 with
  | false =>
      obtain ⟨h1, h2, h3⟩ :=
        retry_denied_spec env gw now ip oid? src? st hallow
      exact ⟨Or.inl h1, Or.inl ⟨h3, h2⟩⟩
  | true =>
  cases hfalsy : (order_id_falsy oid? || source_id_falsy src?) with
  | true =>
      obtain ⟨h1, h2, h3⟩ :=
        retry_falsy_spec env gw now ip oid? src? st hallow hfalsy
      exact ⟨Or.inl h1, Or.inl ⟨h3, h2⟩⟩
  | false =>
  obtain ⟨hof, hsf⟩ := Bool.or_eq_false_iff.mp hfalsy
  rcases oid? with _ | oid
  · simp [order_id_falsy] at hof
  rcases src? with _ | src
  · simp [source_id_falsy] at hsf
  have hoid : oid ≠ 0 := by simpa [order_id_falsy] using hof
  have hsrc : src ≠ "" := by simpa [source_id_falsy] using hsf
  cases horder : st.orders oid with
  | none =>
      have h := retry_notfound_spec env gw now ip (some oid) (some src) st
        hallow hfalsy (by simpa using horder)
      exact ⟨Or.inl h.1, Or.inl ⟨h.2.2, h.2.1⟩⟩
  | some o =>
  by_cases hguard : o.payment_status = "failed" ∨
      o.payment_status = "processing"
  · cases gw with
    | raises =>
        have h := retry_raises_spec env now ip oid src st o hallow hoid hsrc
          horder hguard
        exact ⟨Or.inl h.2.1, Or.inr ⟨h.2.2.2.1, h.2.2.1⟩⟩
    | returns result =>
        rcases herr : result.errors with _ | ⟨e, es⟩
        · cases hpay : result.payment with
          | none =>
              have h := retry_nopayment_spec env now ip oid src st o result
                hallow hoid hsrc horder hguard herr hpay
              exact ⟨Or.inl h.2.1, Or.inr ⟨h.2.2.2, h.2.2.1⟩⟩
          | some p =>
              by_cases hfl : p.status = "FAILED"
              · have h := retry_fail_status_spec env now ip oid src st o
                  result p hallow hoid hsrc horder hguard herr hpay hfl
                exact ⟨Or.inr ⟨oid, o, rfl, horder, hguard, h.2.2.1,
                  Or.inl h.2.1⟩, Or.inr ⟨h.2.2.2.2, h.2.2.2.1⟩⟩
              · have h := retry_success_spec env now ip oid src st o result p
                  hallow hoid hsrc horder hguard herr hpay hfl
                exact ⟨Or.inr ⟨oid, o, rfl, horder, hguard, h.2.2.2.1,
                  Or.inr h.2.1⟩, Or.inr ⟨h.2.2.2.2.2, h.2.2.2.2.1⟩⟩
        · have h := retry_fail_errors_spec env now ip oid src st o result
            hallow hoid hsrc horder hguard (by simp [herr])
          exact ⟨Or.inr ⟨oid, o, rfl, horder, hguard, h.2.2.2.1,
            Or.inl h.2.1⟩, Or.inr ⟨h.2.2.2.2.2, h.2.2.2.2.1⟩⟩
  · have h := retry_badstate_spec env gw now ip (some oid) (some src) st o
      hallow hfalsy (by simpa using horder) hguard
    exact ⟨Or.inl h.1, Or.inl ⟨h.2.2, h.2.1⟩⟩

/-! ## Trace-level lemmas -/

theorem run_append_state (env : Env) (l1 l2 : List Op) : ∀ st,
    (run env st (l1 ++ l2)).1 = (run env (run env st l1).1 l2).1 := by
  induction l1 with
  | nil => intro st; simp [run]
  | cons op l ih => intro st; simp only [List.cons_append, run]; exact ih _

theorem step_calls (env : Env) (st : SysState) (op : Op) :
    ((step env st op).2 = [] ∧
      (step env st op).1.key_counter = st.key_counter) ∨
    ((step env st op).2.map GatewayCall.idempotency_key = [st.key_counter] ∧
      (step env st op).1.key_counter = st.key_counter + 1) := by
  cases op with
  | pay gw now ip req => exact process_calls_total env gw now ip req st
  | retry gw now ip oid src =>
      exact (retry_step_total env gw now ip oid src st).2

theorem step_Inv (env : Env) (st : SysState) (op : Op) (h : Inv st) :
    Inv (step env st op).1 := by
  cases op with
  | pay gw now ip req =>
      simp only [step]
      rcases process_orders_shape env gw now ip req st with ⟨hn, ho⟩ | ⟨hn, ho⟩
      · intro i hi
        rw [hn] at hi
        rw [ho]
        exact h i hi
      · intro i hi
        rw [hn] at hi
        rw [ho i (by omega)]
        exact h i (by omega)
  | retry gw now ip oid src =>
      simp only [step]
      have hn := retry_next_id env gw now ip oid src st
      rcases (retry_step_total env gw now ip oid src st).1 with ho |
        ⟨oid2, o, _, horder, _, hother, _⟩
      · intro i hi
        rw [hn] at hi
        rw [ho]
        exact h i hi
      · intro i hi
        rw [hn] at hi
        have hne : i ≠ oid2 := by
          intro e
          subst e
          rw [h i hi] at horder
          exact Option.noConfusion horder
        rw [hother i hne]
        exact h i hi

theorem step_completed (env : Env) (st : SysState) (op : Op) (oid : Nat)
    (h : Inv st)
    (hc : (st.orders oid).map Order.payment_status = some "completed") :
    ((step env st op).1.orders oid).map Order.payment_status =
      some "completed" := by
  cases op with
  | pay gw now ip req =>
      simp only [step]
      rcases process_orders_shape env gw now ip req st with ⟨hn, ho⟩ | ⟨hn, ho⟩
      · rw [ho]
        exact hc
      · have hne : oid ≠ st.next_order_id := by
          intro e
          rw [e, h st.next_order_id le_rfl] at hc
          exact Option.noConfusion hc
        rw [ho oid hne]
        exact hc
  | retry gw now ip oidq src =>
      simp only [step]
      rcases (retry_step_total env gw now ip oidq src st).1 with ho |
        ⟨oid2, o, _, horder, hretry, hother, _⟩
      · rw [ho]
        exact hc
      · by_cases e : oid = oid2
        · subst e
          rw [horder] at hc
          simp at hc
          rcases hretry with h1 | h1 <;> rw [h1] at hc <;>
            exact absurd hc (by decide)
        · rw [hother oid e]
          exact hc

theorem init_Inv : Inv init := fun _ _ => rfl

theorem run_Inv (env : Env) : ∀ ops st, Inv st → Inv (run env st ops).1 := by
  intro ops
  induction ops with
  | nil =>
      intro st h
      simpa [run] using h
  | cons op ops ih =>
      intro st h
      simp only [run]
      exact ih _ (step_Inv env st op h)

theorem run_completed (env : Env) : ∀ ops st oid, Inv st →
    (st.orders oid).map Order.payment_status = some "completed" →
    ((run env st ops).1.orders oid).map Order.payment_status =
      some "completed" := by
  intro ops
  induction ops with
  | nil =>
      intro st oid h hc
      simpa [run] using hc
  | cons op ops ih =>
      intro st oid h hc
      simp only [run]
      exact ih _ _ (step_Inv env st op h) (step_completed env st op oid h hc)

theorem run_keys (env : Env) : ∀ ops st,
    ((run env st ops).2.map GatewayCall.idempotency_key).Nodup ∧
    (∀ c ∈ (run env st ops).2, st.key_counter ≤ c.idempotency_key ∧
      c.idempotency_key < (run env st ops).1.key_counter) ∧
    st.key_counter ≤ (run env st ops).1.key_counter := by
  intro ops
  induction ops with
  | nil =>
      intro st
      simp [run]
  | cons op ops ih =>
      intro st
      simp only [run]
      obtain ⟨ih1, ih2, ih3⟩ := ih (step env st op).1
      rcases step_calls env st op with ⟨hc, hk⟩ | ⟨hc, hk⟩
      · rw [hc]
        simp only [List.nil_append]
        refine ⟨ih1, ?_, ?_⟩
        · intro c hm
          obtain ⟨hlo, hhi⟩ := ih2 c hm
          rw [hk] at hlo
          exact ⟨hlo, hhi⟩
        · rw [hk] at ih3
          exact ih3
      · obtain ⟨c0, hc0⟩ := List.length_eq_one.mp
          (by rw [← List.length_map, hc]; rfl)
        rw [hc0] at hc
        simp only [List.map_cons, List.map_nil] at hc
        have hkey : c0.idempotency_key = st.key_counter :=
          List.cons.inj hc |>.1
        rw [hc0]
        rw [hk] at ih2 ih3
        refine ⟨?_, ?_, by omega⟩
        · simp only [List.cons_append, List.nil_append, List.map_cons,
            List.nodup_cons]
          refine ⟨?_, ih1⟩
          intro hmem
          obtain ⟨c, hcm, hck⟩ := List.mem_map.mp hmem
          have := (ih2 c hcm).1
          omega
        · intro c hm
          rcases List.mem_append.mp hm with hm1 | hm2
          · have hcq : c = c0 := by simpa using hm1
            subst hcq
            exact ⟨by omega, by omega⟩
          · obtain ⟨hlo, hhi⟩ := ih2 c hm2
            exact ⟨by omega, hhi⟩

/-! ## Claim theorems -/

/-- C6: for every identity the admission check first prunes records older
than 1 day, then evaluates the three windows in ascending duration order
(5 min/limit 5, 1 hour/limit 15, 1 day/limit 50); it agrees with the
spec-side `isAdmitted`, denies with the window-specific message of the first
(shortest) saturated window, and admits exactly when no window is
saturated. -/
theorem C6_admission_order (now : Int) (attempts : List Int) :
    check_rate_limit now attempts = isAdmitted now attempts ∧
    ((check_rate_limit now attempts).1.1 = true ↔
      attempts_within now 300 (cleanup_old_attempts now attempts) < 5 ∧
      attempts_within now 3600 (cleanup_old_attempts now attempts) < 15 ∧
      attempts_within now 86400 (cleanup_old_attempts now attempts) < 50) ∧
    (5 ≤ attempts_within now 300 (cleanup_old_attempts now attempts) →
      (check_rate_limit now attempts).1 =
        (false, rate_limit_message "per_5_minutes")) ∧
    (attempts_within now 300 (cleanup_old_attempts now attempts) < 5 →
      15 ≤ attempts_within now 3600 (cleanup_old_attempts now attempts) →
      (check_rate_limit now attempts).1 =
        (false, rate_limit_message "per_hour")) ∧
    (attempts_within now 300 (cleanup_old_attempts now attempts) < 5 →
      attempts_within now 3600 (cleanup_old_attempts now attempts) < 15 →
      50 ≤ attempts_within now 86400 (cleanup_old_attempts now attempts) →
      (check_rate_limit now attempts).1 =
        (false, rate_limit_message "per_day")) := by
  refine ⟨rfl, ?_, ?_, ?_, ?_⟩ <;>
    simp only [check_rate_limit, check_rate_limit_loop, RATE_LIMITS,
      attempts_within, rate_limit_message] <;>
    split_ifs <;> simp_all

/-- C6 witness: with five attempts two minutes ago, the sixth attempt is
denied with the 5-minute message. -/
theorem C6_admission_order_witness :
    (check_rate_limit 300 [180, 180, 180, 180, 180]).1 =
      (false, rate_limit_message "per_5_minutes") :=
  (C6_admission_order 300 [180, 180, 180, 180, 180]).2.2.1 (by decide)

/-- C8: an attempt whose arrival brings the 60-second global count to the
threshold of 60 sends an alert exactly when no alert was ever sent or more
than the 15-minute cooldown has elapsed, and then stamps `last_alert_time`
with the current time; inside the cooldown no alert is sent and the stamp is
unchanged, so a post-cooldown attempt with the count still at threshold
alerts exactly once more. -/
theorem C8_anomaly_alerts (now : Int) (ip : String) (attempts : List Int)
    (st : AnomalyState)
    (hsorted : st.global_payment_attempts.Pairwise
      (fun a b => a.timestamp ≤ b.timestamp))
    (hpast : ∀ a ∈ st.global_payment_attempts, a.timestamp ≤ now) :
    ((record_payment_attempt now ip attempts st).2.2 = true ↔
      ANOMALY_THRESHOLD ≤
        global_attempts_within now
          (st.global_payment_attempts ++ [⟨now, ip⟩]) ∧
      (st.last_alert_time = none ∨
        ∃ t, st.last_alert_time = some t ∧ ALERT_COOLDOWN < now - t)) ∧
    ((record_payment_attempt now ip attempts st).2.2 = true →
      (record_payment_attempt now ip attempts st).2.1.last_alert_time =
        some now) ∧
    ((record_payment_attempt now ip attempts st).2.2 = false →
      (record_payment_attempt now ip attempts st).2.1.last_alert_time =
        st.last_alert_time) ∧
    (record_payment_attempt now ip attempts st).1 = attempts ++ [now] := by
  have hs2 : List.Pairwise (fun a b => a.timestamp ≤ b.timestamp)
      (st.global_payment_attempts ++ [GlobalAttempt.mk now ip]) := by
    rw [List.pairwise_append]
    refine ⟨hsorted, by simp, ?_⟩
    intro a ha b hb
    simp only [List.mem_singleton] at hb
    subst hb
    exact hpast a ha
  simp only [record_payment_attempt, check_for_anomaly,
    cleanup_global_attempts]
  rw [dropWhile_old_eq_filter _ _ hs2]
  simp only [global_attempts_within]
  rw [← cooldown_elapsed_iff]
  split_ifs with h1 h2 <;> simp_all

/-- C8 witness: the 60th attempt of a one-minute burst from a fresh detector
state triggers an alert and stamps the alert time. -/
theorem C8_anomaly_alerts_witness :
    ((record_payment_attempt 59 "ip" []
        ⟨(List.range 59).map (fun i => ⟨(i : Int), "ip"⟩), none⟩).2.2 =
      true) ∧
    ((record_payment_attempt 59 "ip" []
        ⟨(List.range 59).map (fun i => ⟨(i : Int), "ip"⟩), none⟩).2.1.last_alert_time =
      some 59) := by
  have h := C8_anomaly_alerts 59 "ip" []
    ⟨(List.range 59).map (fun i => ⟨(i : Int), "ip"⟩), none⟩
    (by decide) (by decide)
  exact ⟨h.1.mpr (by decide), h.2.1 (h.1.mpr (by decide))⟩

/-- Helper: a denied admission carries one of the three window-specific
messages. -/
theorem rate_limit_message_cases (now : Int) (attempts : List Int)
    (h : (check_rate_limit now attempts).1.1 = false) :
    (check_rate_limit now attempts).1.2 = rate_limit_message "per_5_minutes" ∨
    (check_rate_limit now attempts).1.2 = rate_limit_message "per_hour" ∨
    (check_rate_limit now attempts).1.2 = rate_limit_message "per_day" := by
  simp only [check_rate_limit, check_rate_limit_loop, RATE_LIMITS] at h ⊢
  split_ifs at h ⊢ <;> simp_all

/-- C7: a rate-limited payment or retry request is answered locally with
`rate_limited := true` and one of the three pairwise-distinct
window-specific messages; for that request no attempt is recorded (the
per-identity deque is only pruned and the anomaly detector is untouched),
no order is created, and no gateway call is made. -/
theorem C7_rate_limited_resolved_locally (env : Env) (gw : GatewayBehavior)
    (now : Int) (ip : String) (req : PaymentRequest) (oid : Option Nat)
    (src : Option String) (st : SysState)
    (hdenied : (check_rate_limit now (st.payment_attempts ip)).1.1 = false) :
    (process_payment env gw now ip req st).1.rate_limited = true ∧
    (process_payment env gw now ip req st).1.success = false ∧
    (process_payment env gw now ip req st).1.message =
      (check_rate_limit now (st.payment_attempts ip)).1.2 ∧
    (process_payment env gw now ip req st).2.1.orders = st.orders ∧
    (process_payment env gw now ip req st).2.1.next_order_id =
      st.next_order_id ∧
    (process_payment env gw now ip req st).2.1.anomaly = st.anomaly ∧
    (process_payment env gw now ip req st).2.1.payment_attempts ip =
      cleanup_old_attempts now (st.payment_attempts ip) ∧
    (∀ ip2, ip2 ≠ ip → (process_payment env gw now ip req st).2.1.payment_attempts ip2 =
      st.payment_attempts ip2) ∧
    (process_payment env gw now ip req st).2.2 = [] ∧
    (retry_payment env gw now ip oid src st).1.rate_limited = true ∧
    (retry_payment env gw now ip oid src st).1.success = false ∧
    (retry_payment env gw now ip oid src st).1.message =
      (check_rate_limit now (st.payment_attempts ip)).1.2 ∧
    (retry_payment env gw now ip oid src st).2.1.orders = st.orders ∧
    (retry_payment env gw now ip oid src st).2.1.anomaly = st.anomaly ∧
    (retry_payment env gw now ip oid src st).2.1.payment_attempts ip =
      cleanup_old_attempts now (st.payment_attempts ip) ∧
    (retry_payment env gw now ip oid src st).2.2 = [] ∧
    ((check_rate_limit now (st.payment_attempts ip)).1.2 =
        rate_limit_message "per_5_minutes" ∨
      (check_rate_limit now (st.payment_attempts ip)).1.2 =
        rate_limit_message "per_hour" ∨
      (check_rate_limit now (st.payment_attempts ip)).1.2 =
        rate_limit_message "per_day") ∧
    rate_limit_message "per_5_minutes" ≠ rate_limit_message "per_hour" ∧
    rate_limit_message "per_5_minutes" ≠ rate_limit_message "per_day" ∧
    rate_limit_message "per_hour" ≠ rate_limit_message "per_day" := by
  refine ⟨?_, ?_, ?_, ?_, ?_, ?_, ?_, ?_, ?_, ?_, ?_, ?_, ?_, ?_, ?_, ?_,
    rate_limit_message_cases now _ hdenied, by decide, by decide, by decide⟩ <;>
    simp [process_payment, retry_payment, hdenied] <;>
    simp [check_rate_limit] <;>
    exact fun ip2 h1 h2 => absurd h2 h1

/-- C7 witness: with five prior attempts in the current 5-minute window,
both endpoints deny with `rate_limited := true`, make no gateway call and
leave the ledger untouched. -/
theorem C7_rate_limited_resolved_locally_witness :
    (process_payment ⟨fun _ => none, fun _ => none⟩ .raises 300 "ip"
      ⟨"s", 0, "USD", "e", "f", "l", 1, []⟩
      { init with payment_attempts := fun _ => [180, 180, 180, 180, 180] }
      ).1.rate_limited = true ∧
    (process_payment ⟨fun _ => none, fun _ => none⟩ .raises 300 "ip"
      ⟨"s", 0, "USD", "e", "f", "l", 1, []⟩
      { init with payment_attempts := fun _ => [180, 180, 180, 180, 180] }
      ).2.2 = [] := by
  have h := C7_rate_limited_resolved_locally ⟨fun _ => none, fun _ => none⟩
    .raises 300 "ip" ⟨"s", 0, "USD", "e", "f", "l", 1, []⟩ none none
    { init with payment_attempts := fun _ => [180, 180, 180, 180, 180] }
    (by decide)
  exact ⟨h.1, h.2.2.2.2.2.2.2.2.1⟩

/-- C4: a retry request for an unknown order id fails with an explicit
not-found message, and one for an order that is neither `processing` nor
`failed` (in particular a `completed` one) fails with the cannot-be-retried
message; in both cases the ledger (hence every order's status and external
payment reference) is unchanged, no idempotency key is drawn, and no
gateway call is made. -/
theorem C4_retry_guards (env : Env) (gw : GatewayBehavior) (now : Int)
    (ip : String) (oid : Nat) (src : String) (st : SysState)
    (hallowed : (check_rate_limit now (st.payment_attempts ip)).1.1 = true)
    (hoid : oid ≠ 0) (hsrc : src ≠ "") :
    (st.orders oid = none →
      (retry_payment env gw now ip (some oid) (some src) st).1.success =
        false ∧
      (retry_payment env gw now ip (some oid) (some src) st).1.message =
        "Order " ++ toString oid ++ " not found" ∧
      (retry_payment env gw now ip (some oid) (some src) st).2.1.orders =
        st.orders ∧
      (retry_payment env gw now ip (some oid) (some src) st).2.1.key_counter =
        st.key_counter ∧
      (retry_payment env gw now ip (some oid) (some src) st).2.2 = []) ∧
    (∀ o, st.orders oid = some o →
      ¬(o.payment_status = "failed" ∨ o.payment_status = "processing") →
      (retry_payment env gw now ip (some oid) (some src) st).1.success =
        false ∧
      (retry_payment env gw now ip (some oid) (some src) st).1.message =
        "Order payment cannot be retried" ∧
      (retry_payment env gw now ip (some oid) (some src) st).2.1.orders =
        st.orders ∧
      (retry_payment env gw now ip (some oid) (some src) st).2.1.key_counter =
        st.key_counter ∧
      (retry_payment env gw now ip (some oid) (some src) st).2.2 = []) := by
  constructor
  · intro hnone
    simp [retry_payment, hallowed, order_id_falsy, source_id_falsy, hoid,
      hsrc, get_order_by_id, hnone]
  · intro o hsome hstatus
    simp [retry_payment, hallowed, order_id_falsy, source_id_falsy, hoid,
      hsrc, get_order_by_id, hsome, hstatus]

/-- C4 witness: retrying a completed order from startup state (plus that one
order) is rejected with the cannot-be-retried message and no state change. -/
theorem C4_retry_guards_witness :
    (retry_payment ⟨fun _ => none, fun _ => none⟩ .raises 0 "ip" (some 1)
      (some "tok")
      { init with orders := fun i =>
          if i = 1 then some ⟨1, "e", "n", 100, "completed", some "sq", "", []⟩
          else none }).1.message = "Order payment cannot be retried" ∧
    (retry_payment ⟨fun _ => none, fun _ => none⟩ .raises 0 "ip" (some 1)
      (some "tok")
      { init with orders := fun i =>
          if i = 1 then some ⟨1, "e", "n", 100, "completed", some "sq", "", []⟩
          else none }).2.2 = [] := by
  have h := (C4_retry_guards ⟨fun _ => none, fun _ => none⟩ .raises 0 "ip" 1
    "tok"
    { init with orders := fun i =>
        if i = 1 then some ⟨1, "e", "n", 100, "completed", some "sq", "", []⟩
        else none }
    (by decide) (by decide) (by decide)).2
    ⟨1, "e", "n", 100, "completed", some "sq", "", []⟩ (by decide) (by decide)
  exact ⟨h.2.1, h.2.2.2.2⟩

/-- C10: the admin authentication predicate accepts exactly the session ids
stored in the session dict whose age is at most 3600 seconds; an expired
session is deleted by the check, is rejected, and can never validate
again. -/
theorem C10_admin_sessions (now : Int) (session_id : String)
    (sessions : AdminSessions) (hempty : sessions "" = none) :
    (((is_admin_authenticated now session_id sessions).1 = true) ↔
      ∃ t, sessions session_id = some t ∧ now - t ≤ 3600) ∧
    (∀ t, sessions session_id = some t → 3600 < now - t →
      (is_admin_authenticated now session_id sessions).1 = false ∧
      (is_admin_authenticated now session_id sessions).2 session_id = none ∧
      ∀ later, (is_admin_authenticated later session_id
        ((is_admin_authenticated now session_id sessions).2)).1 = false) := by
  by_cases hsid : session_id = ""
  · subst hsid
    simp [is_admin_authenticated, hempty]
  · constructor
    · simp only [is_admin_authenticated, if_neg hsid]
      rcases h : sessions session_id with _ | t
      · simp
      · dsimp only
        split_ifs with ht
        · simp
          omega
        · simp
          omega
    · intro t ht hold
      simp only [is_admin_authenticated, if_neg hsid, ht]
      rw [if_pos hold]
      simp [hsid]

/-- C10 witness: a session created at time 0 is rejected and deleted at time
4000, and stays rejected afterwards. -/
theorem C10_admin_sessions_witness :
    (is_admin_authenticated 4000 "s"
      (fun s => if s = "s" then some 0 else none)).1 = false ∧
    (is_admin_authenticated 4000 "s"
      (fun s => if s = "s" then some 0 else none)).2 "s" = none ∧
    ∀ later, (is_admin_authenticated later "s"
      ((is_admin_authenticated 4000 "s"
        (fun s => if s = "s" then some 0 else none)).2)).1 = false :=
  (C10_admin_sessions 4000 "s" (fun s => if s = "s" then some 0 else none)
    (by decide)).2 0 (by decide) (by decide)

/-- C3 (amended): an order whose payment status has become `completed` is
never transitioned to any other status afterwards. However, the transitions
actually performed are `processing→completed`, `processing→failed`,
`failed→completed` and the no-change rewrite `failed→failed`: a successful
retry moves a `failed` order directly to `completed`, with no intermediate
write back to `processing` (contrary to the claim, which lists
`failed`/`processing`→`processing` as the retry transition). -/
theorem C3_transitions_amended :
    (∀ env ops ops2 oid,
      ((runState env ops).orders oid).map Order.payment_status =
        some "completed" →
      ((runState env (ops ++ ops2)).orders oid).map Order.payment_status =
        some "completed") ∧
    (∀ env ops op oid o o2,
      (runState env ops).orders oid = some o →
      (step env (runState env ops) op).1.orders oid = some o2 →
      o2.payment_status ≠ o.payment_status →
      legal_settlement_change o.payment_status o2.payment_status) := by
  constructor
  · intro env ops ops2 oid hc
    have hInv : Inv (runState env ops) := run_Inv env ops init init_Inv
    unfold runState at hc ⊢
    rw [run_append_state]
    exact run_completed env ops2 _ oid hInv hc
  · intro env ops op oid o o2 h1 h2 hne
    have hInv : Inv (runState env ops) := run_Inv env ops init init_Inv
    cases op with
    | pay gw now ip req =>
        exfalso
        simp only [step] at h2
        rcases process_orders_shape env gw now ip req (runState env ops) with
          ⟨hn, ho⟩ | ⟨hn, ho⟩
        · rw [ho, h1] at h2
          cases Option.some.inj h2
          exact hne rfl
        · have hno : oid ≠ (runState env ops).next_order_id := by
            intro e
            rw [e, hInv (runState env ops).next_order_id le_rfl] at h1
            exact Option.noConfusion h1
          rw [ho oid hno, h1] at h2
          cases Option.some.inj h2
          exact hne rfl
    | retry gw now ip oidq src =>
        simp only [step] at h2
        rcases (retry_step_total env gw now ip oidq src (runState env ops)).1
          with ho | ⟨oid2, o3, _, horder, hretry, hother, hstat⟩
        · exfalso
          rw [ho, h1] at h2
          cases Option.some.inj h2
          exact hne rfl
        · by_cases e : oid = oid2
          · subst e
            rw [horder] at h1
            cases Option.some.inj h1
            rcases hstat with hs | hs <;> rw [h2] at hs <;> simp at hs
            · rcases hretry with hr | hr
              · exact absurd (by rw [hs, hr]) hne
              · exact Or.inr (Or.inl ⟨hr, hs⟩)
            · rcases hretry with hr | hr
              · exact Or.inr (Or.inr ⟨hr, hs⟩)
              · exact Or.inl ⟨hr, hs⟩
          · exfalso
            rw [hother oid e, h1] at h2
            cases Option.some.inj h2
            exact hne rfl

/-- C3 counterexample: a declined first charge leaves order 1 `failed`; a
successful explicit retry then moves it directly to `completed` — the
performed transition (`failed`, `completed`) is outside the claim's
transition set. -/
theorem C3_counterexample :
    ((runState env₁ [Op.pay gwDecline 0 "ip" req₁]).orders 1).map
      Order.payment_status = some "failed" ∧
    ((runState env₁ [Op.pay gwDecline 0 "ip" req₁,
        Op.retry gwOk 1 "ip" (some 1) (some "cnon")]).orders 1).map
      Order.payment_status = some "completed" ∧
    ("failed", "completed") ∉ claimed_transitions := by
  decide

/-- C3 witness: a completed order stays completed across a further retry
request. -/
theorem C3_transitions_amended_witness :
    ((runState env₁ ([Op.pay gwOk 0 "ip" req₁] ++
        [Op.retry gwOk 1 "ip" (some 1) (some "cnon")])).orders 1).map
      Order.payment_status = some "completed" :=
  C3_transitions_amended.1 env₁ [Op.pay gwOk 0 "ip" req₁]
    [Op.retry gwOk 1 "ip" (some 1) (some "cnon")] 1 (by decide)

/-- C9: every gateway charge invocation in any sequence of payment and retry
requests uses a fresh idempotency key, pairwise distinct across the whole
trace — in particular a retry of an order uses a different key than the
original attempt. (Python `str(uuid.uuid4())` is modelled as an injective
fresh-key supply.) -/
theorem C9_unique_idempotency_keys (env : Env) (ops : List Op) :
    ((run env init ops).2.map GatewayCall.idempotency_key).Nodup :=
  (run_keys env ops init).1

/-- C1 (amended): the payment endpoint performs no validation of the items
or of the declared total: whenever admission succeeds, the recital exists
and the ledger id supply is nonzero, an order is persisted under the next id
with the caller-supplied total and the caller's items exactly as given —
also when the items list is empty, a quantity is not positive, or the
declared total differs from the sum of line totals — and the order id is
returned. No ValidationError path exists in the endpoint. -/
theorem C1_no_validation_amended (env : Env) (gw : GatewayBehavior)
    (now : Int) (ip : String) (req : PaymentRequest) (st : SysState)
    (recital : Recital)
    (hallow : (check_rate_limit now (st.payment_attempts ip)).1.1 = true)
    (hrec : env.recitals req.recital_id = some recital)
    (hnz : st.next_order_id ≠ 0) :
    ((process_payment env gw now ip req st).2.1.orders
        st.next_order_id).map Order.total_amount_cents = some req.amount ∧
    ((process_payment env gw now ip req st).2.1.orders
        st.next_order_id).map Order.items = some (req.ticket_items.map
        (fun i => ⟨i.ticket_type_id, i.quantity, i.price_per_ticket_cents⟩)) ∧
    (process_payment env gw now ip req st).1.order_id =
      some st.next_order_id := by
  cases gw with
  | raises =>
      have h := process_raises_spec env now ip req st recital hallow hrec hnz
      exact ⟨h.2.2.2.1, h.2.2.2.2.1, by rw [h.1]⟩
  | returns result =>
      rcases herr : result.errors with _ | ⟨e, es⟩
      · cases hpay : result.payment with
        | none =>
            have h := process_nopayment_spec env now ip req st recital result
              hallow hrec hnz herr hpay
            exact ⟨h.2.2.1, h.2.2.2.1, by rw [h.1]⟩
        | some p =>
            have h := process_success_spec env now ip req st recital result p
              hallow hrec hnz herr hpay
            exact ⟨h.2.2.2.1, h.2.2.2.2.1, by rw [h.1]⟩
      · have h := process_errors_spec env now ip req st recital result
          hallow hrec hnz (by simp [herr])
        exact ⟨h.2.2.2.1, h.2.2.2.2.1, by rw [h.1]⟩

/-- C1 counterexample: a request declaring total 3000 whose items sum to
3500 is not rejected: the charge succeeds, no error is reported, and the
order is persisted with the mismatched caller-supplied total. -/
theorem C1_counterexample :
    (process_payment env₁ gwOk 0 "ip" req₁ init).1.success = true ∧
    (process_payment env₁ gwOk 0 "ip" req₁ init).1.errors = none ∧
    ((process_payment env₁ gwOk 0 "ip" req₁ init).2.1.orders 1).isSome =
      true ∧
    ((process_payment env₁ gwOk 0 "ip" req₁ init).2.1.orders 1).map
      Order.total_amount_cents = some 3000 ∧
    ((process_payment env₁ gwOk 0 "ip" req₁ init).2.1.orders 1).map
      (fun o => line_totals_sum o.items) = some 3500 := by
  decide

/-- C1 witness: the amended theorem applied to the mismatched request. -/
theorem C1_no_validation_amended_witness :
    ((process_payment env₁ gwOk 0 "ip" req₁ init).2.1.orders
        init.next_order_id).map Order.total_amount_cents =
      some req₁.amount ∧
    ((process_payment env₁ gwOk 0 "ip" req₁ init).2.1.orders
        init.next_order_id).map Order.items = some (req₁.ticket_items.map
        (fun i => ⟨i.ticket_type_id, i.quantity, i.price_per_ticket_cents⟩)) ∧
    (process_payment env₁ gwOk 0 "ip" req₁ init).1.order_id =
      some init.next_order_id :=
  C1_no_validation_amended env₁ gwOk 0 "ip" req₁ init
    ⟨"Recital", "Artist", "2026-01-01"⟩ (by decide) (by decide) (by decide)

/-- C2 (amended): on an explicit gateway error list both endpoints mark the
order `failed` and return the error details together with the order id. A
failed *status* on the payment object is detected only by the retry
endpoint; the first-charge endpoint treats any response without errors and
with a payment object as success — marking the order `completed`, storing
the gateway payment id, and returning a success response with payment id
and receipt url. The retry success response carries payment id and order id
(no receipt url). The order id is returned in every case. -/
theorem C2_gateway_outcomes_amended :
    (∀ env now ip req st recital result p,
      (check_rate_limit now (st.payment_attempts ip)).1.1 = true →
      env.recitals req.recital_id = some recital →
      st.next_order_id ≠ 0 →
      (result.errors ≠ [] →
        (process_payment env (.returns result) now ip req st).1 =
          { success := false
            errors := some result.errors
            message := "Payment failed. Please try again."
            order_id := some st.next_order_id } ∧
        ((process_payment env (.returns result) now ip req st).2.1.orders
            st.next_order_id).map Order.payment_status = some "failed") ∧
      (result.errors = [] → result.payment = some p →
        (process_payment env (.returns result) now ip req st).1 =
          { success := true
            payment_id := some p.id
            order_id := some st.next_order_id
            status := some p.status
            amount := some p.amount
            receipt_url := some p.receipt_url
            message := "Payment processed successfully!" } ∧
        ((process_payment env (.returns result) now ip req st).2.1.orders
            st.next_order_id).map Order.payment_status = some "completed" ∧
        ((process_payment env (.returns result) now ip req st).2.1.orders
            st.next_order_id).map Order.square_payment_id =
          some (some p.id))) ∧
    (∀ env now ip oid src st o result p,
      (check_rate_limit now (st.payment_attempts ip)).1.1 = true →
      oid ≠ 0 → src ≠ "" →
      st.orders oid = some o →
      (o.payment_status = "failed" ∨ o.payment_status = "processing") →
      (result.errors ≠ [] →
        (retry_payment env (.returns result) now ip (some oid) (some src)
            st).1 =
          { success := false
            errors := some result.errors
            message := "Payment retry failed. Please try again."
            order_id := some oid } ∧
        ((retry_payment env (.returns result) now ip (some oid) (some src)
            st).2.1.orders oid).map Order.payment_status = some "failed") ∧
      (result.errors = [] → result.payment = some p → p.status = "FAILED" →
        (retry_payment env (.returns result) now ip (some oid) (some src)
            st).1 =
          { success := false
            errors := some ["Payment failed"]
            message := "Payment retry failed. Please try again."
            order_id := some oid } ∧
        ((retry_payment env (.returns result) now ip (some oid) (some src)
            st).2.1.orders oid).map Order.payment_status = some "failed") ∧
      (result.errors = [] → result.payment = some p → p.status ≠ "FAILED" →
        (retry_payment env (.returns result) now ip (some oid) (some src)
            st).1 =
          { success := true
            message := "Payment completed successfully!"
            payment_id := some p.id
            order_id := some oid } ∧
        ((retry_payment env (.returns result) now ip (some oid) (some src)
            st).2.1.orders oid).map Order.payment_status =
          some "completed" ∧
        ((retry_payment env (.returns result) now ip (some oid) (some src)
            st).2.1.orders oid).map Order.square_payment_id =
          some (some p.id))) := by
  constructor
  · intro env now ip req st recital result p hallow hrec hnz
    constructor
    · intro herr
      have h := process_errors_spec env now ip req st recital result hallow
        hrec hnz herr
      exact ⟨h.1, h.2.1⟩
    · intro herr hpay
      have h := process_success_spec env now ip req st recital result p
        hallow hrec hnz herr hpay
      exact ⟨h.1, h.2.1, h.2.2.1⟩
  · intro env now ip oid src st o result p hallow hoid hsrc horder hguard
    refine ⟨?_, ?_, ?_⟩
    · intro herr
      have h := retry_fail_errors_spec env now ip oid src st o result hallow
        hoid hsrc horder hguard herr
      exact ⟨h.1, h.2.1⟩
    · intro herr hpay hfl
      have h := retry_fail_status_spec env now ip oid src st o result p
        hallow hoid hsrc horder hguard herr hpay hfl
      exact ⟨h.1, h.2.1⟩
    · intro herr hpay hok
      have h := retry_success_spec env now ip oid src st o result p hallow
        hoid hsrc horder hguard herr hpay hok
      exact ⟨h.1, h.2.1, h.2.2.1⟩

/-- C2 counterexample: on the first charge, a gateway response with no
error list but a payment object reporting status `FAILED` is treated as
success: the response has `success = true` (even echoing the FAILED status)
and the order is marked `completed`, not `failed`. -/
theorem C2_counterexample :
    (process_payment env₁ gwFailedStatus 0 "ip" req₁ init).1.success =
      true ∧
    (process_payment env₁ gwFailedStatus 0 "ip" req₁ init).1.status =
      some "FAILED" ∧
    ((process_payment env₁ gwFailedStatus 0 "ip" req₁ init).2.1.orders
      1).map Order.payment_status = some "completed" := by
  decide

/-- C2 witness: the amended theorem applied to a successful charge. -/
theorem C2_gateway_outcomes_amended_witness :
    (process_payment env₁ (.returns ⟨[], some
        ⟨"sq_123", "COMPLETED", 3000, "https://receipt"⟩⟩) 0 "ip" req₁
        init).1 =
      { success := true
        payment_id := some "sq_123"
        order_id := some init.next_order_id
        status := some "COMPLETED"
        amount := some 3000
        receipt_url := some "https://receipt"
        message := "Payment processed successfully!" } ∧
    ((process_payment env₁ (.returns ⟨[], some
        ⟨"sq_123", "COMPLETED", 3000, "https://receipt"⟩⟩) 0 "ip" req₁
        init).2.1.orders init.next_order_id).map Order.payment_status =
      some "completed" ∧
    ((process_payment env₁ (.returns ⟨[], some
        ⟨"sq_123", "COMPLETED", 3000, "https://receipt"⟩⟩) 0 "ip" req₁
        init).2.1.orders init.next_order_id).map Order.square_payment_id =
      some (some "sq_123") :=
  (C2_gateway_outcomes_amended.1 env₁ 0 "ip" req₁ init
    ⟨"Recital", "Artist", "2026-01-01"⟩
    ⟨[], some ⟨"sq_123", "COMPLETED", 3000, "https://receipt"⟩⟩
    ⟨"sq_123", "COMPLETED", 3000, "https://receipt"⟩
    (by decide) (by decide) (by decide)).2 (by decide) (by decide)

/-- C5 (amended): an exception during charging (a raising gateway call, or
a success response missing its payment object) is caught at both endpoints
and the failure response carries the order id so the client can retry; the
first-charge endpoint also forces the order to `failed`, but the retry
endpoint leaves the order's status unchanged rather than forcing it to
`failed`. -/
theorem C5_exception_paths_amended :
    (∀ env now ip req st recital,
      (check_rate_limit now (st.payment_attempts ip)).1.1 = true →
      env.recitals req.recital_id = some recital →
      st.next_order_id ≠ 0 →
      ((process_payment env .raises now ip req st).1.order_id =
          some st.next_order_id ∧
        (process_payment env .raises now ip req st).1.success = false ∧
        ((process_payment env .raises now ip req st).2.1.orders
            st.next_order_id).map Order.payment_status = some "failed") ∧
      (∀ result : SquareResult, result.errors = [] →
        result.payment = none →
        (process_payment env (.returns result) now ip req st).1.order_id =
            some st.next_order_id ∧
        (process_payment env (.returns result) now ip req st).1.success =
          false ∧
        ((process_payment env (.returns result) now ip req st).2.1.orders
            st.next_order_id).map Order.payment_status = some "failed")) ∧
    (∀ env now ip oid src st o,
      (check_rate_limit now (st.payment_attempts ip)).1.1 = true →
      oid ≠ 0 → src ≠ "" →
      st.orders oid = some o →
      (o.payment_status = "failed" ∨ o.payment_status = "processing") →
      ((retry_payment env .raises now ip (some oid) (some src)
          st).1.order_id = some oid ∧
        (retry_payment env .raises now ip (some oid) (some src)
          st).1.success = false ∧
        (retry_payment env .raises now ip (some oid) (some src)
          st).2.1.orders = st.orders) ∧
      (∀ result : SquareResult, result.errors = [] →
        result.payment = none →
        (retry_payment env (.returns result) now ip (some oid) (some src)
            st).1.order_id = some oid ∧
        (retry_payment env (.returns result) now ip (some oid) (some src)
            st).1.success = false ∧
        (retry_payment env (.returns result) now ip (some oid) (some src)
            st).2.1.orders = st.orders)) := by
  constructor
  · intro env now ip req st recital hallow hrec hnz
    constructor
    · have h := process_raises_spec env now ip req st recital hallow hrec hnz
      exact ⟨by rw [h.1], by rw [h.1], h.2.1⟩
    · intro result herr hpay
      have h := process_nopayment_spec env now ip req st recital result
        hallow hrec hnz herr hpay
      exact ⟨by rw [h.1], by rw [h.1], h.2.1⟩
  · intro env now ip oid src st o hallow hoid hsrc horder hguard
    constructor
    · have h := retry_raises_spec env now ip oid src st o hallow hoid hsrc
        horder hguard
      exact ⟨by rw [h.1], by rw [h.1], h.2.1⟩
    · intro result herr hpay
      have h := retry_nopayment_spec env now ip oid src st o result hallow
        hoid hsrc horder hguard herr hpay
      exact ⟨by rw [h.1], by rw [h.1], h.2.1⟩

/-- C5 counterexample: a retry whose gateway call raises, on an order in
`processing`, returns the order id but leaves the status `processing` — the
order is not forced to `failed` before the error is surfaced. -/
theorem C5_counterexample :
    (retry_payment env₁ .raises 0 "ip" (some 1) (some "cnon")
      stProc).1.order_id = some 1 ∧
    (retry_payment env₁ .raises 0 "ip" (some 1) (some "cnon")
      stProc).1.success = false ∧
    ((retry_payment env₁ .raises 0 "ip" (some 1) (some "cnon")
      stProc).2.1.orders 1).map Order.payment_status =
        some "processing" ∧
    ((retry_payment env₁ .raises 0 "ip" (some 1) (some "cnon")
      stProc).2.1.orders 1).map Order.payment_status ≠ some "failed" := by
  decide

/-- C5 witness: the amended theorem applied to a raising retry. -/
theorem C5_exception_paths_amended_witness :
    (retry_payment env₁ .raises 0 "ip" (some 1) (some "cnon")
      stProc).1.order_id = some 1 ∧
    (retry_payment env₁ .raises 0 "ip" (some 1) (some "cnon")
      stProc).1.success = false ∧
    (retry_payment env₁ .raises 0 "ip" (some 1) (some "cnon")
      stProc).2.1.orders = stProc.orders :=
  (C5_exception_paths_amended.2 env₁ 0 "ip" 1 "cnon" stProc procOrder
    (by decide) (by decide) (by decide) (by decide) (by decide)).1

end SSWPA
